import Mathlib

/-!
Verification development for the Google ADK MCP server (`mcp_server.py`).

The server is a thin adapter: it registers twelve named operations
(`handle_list_tools`), dispatches calls to handler coroutines
(`handle_call_tool`), stores created agents in the global `AGENTS` dict and
sessions in `SESSIONS`, and serializes each handler's result as text.

The embedding below models Python values (`PyVal`), Python exceptions
(`PyExn`), the global server state, the calls made into the external
`google.adk` framework (recorded in a ghost trace of `FrameworkCall`s, with
the framework's responses supplied by a `Framework` record of oracles), and
each handler as a pure function from state and arguments to
(new state, framework-call trace, result-or-exception).
-/

set_option maxHeartbeats 1000000

namespace AdkMcp

/-- A Python value as it flows through the server: arguments arrive as
JSON-shaped values, results are built as dicts and serialized with
`json.dumps`. Dicts that the server builds or reads are keyed by string
literals, so `dict` fields carry `String` keys. -/
inductive PyVal where
  | pyNone
  | bool (b : Bool)
  | int (n : Int)
  | float (q : Rat)
  | str (s : String)
  | list (elems : List PyVal)
  | dict (fields : List (String × PyVal))

/-- The Python exceptions the server's own code can raise. -/
inductive PyExn where
  | typeError (msg : String)
  | keyError (key : String)
  | valueError (msg : String)
  | attributeError (msg : String)

/-- `str(e)` for an exception: `KeyError` stringifies with quotes around the
missing key, the others stringify to their message. -/
def exnStr : PyExn → String
  | .typeError m => m
  | .keyError k => "'" ++ k ++ "'"
  | .valueError m => m
  | .attributeError m => m

/-- The Python type name, as used in error messages. -/
def typeName : PyVal → String
  | .pyNone => "NoneType"
  | .bool _ => "bool"
  | .int _ => "int"
  | .float _ => "float"
  | .str _ => "str"
  | .list _ => "list"
  | .dict _ => "dict"

mutual

/-- Python `repr` of a value (string of a list shows its items' reprs).
Floats print via `Rat`'s printer, a simplification never reached by a
handler: no handler interpolates a float into a message. -/
def pyRepr : PyVal → String
  | .pyNone => "None"
  | .bool b => if b then "True" else "False"
  | .int n => toString n
  | .float q => toString q
  | .str s => "'" ++ s ++ "'"
  | .list xs => "[" ++ pyReprItems xs ++ "]"
  | .dict fs => "\x7b" ++ pyReprFields fs ++ "\x7d"

def pyReprItems : List PyVal → String
  | [] => ""
  | [x] => pyRepr x
  | x :: y :: rest => pyRepr x ++ ", " ++ pyReprItems (y :: rest)

def pyReprFields : List (String × PyVal) → String
  | [] => ""
  | [(k, v)] => "'" ++ k ++ "': " ++ pyRepr v
  | (k, v) :: p :: rest => "'" ++ k ++ "': " ++ pyRepr v ++ ", " ++ pyReprFields (p :: rest)

end

/-- Python `str` of a value: identical to `repr` except on strings. -/
def pyStr : PyVal → String
  | .str s => s
  | v => pyRepr v

/-- Python truthiness: `None`, `False`, zero and empty containers are falsy. -/
def pyTruthy : PyVal → Bool
  | .pyNone => false
  | .bool b => b
  | .int n => n != 0
  | .float q => q != 0
  | .str s => !s.isEmpty
  | .list xs => !xs.isEmpty
  | .dict fs => !fs.isEmpty

/-- Whether a value may be a dict key (lists and dicts are unhashable). -/
def pyHashable : PyVal → Bool
  | .list _ => false
  | .dict _ => false
  | _ => true

/-- Equality of hashable Python values used as dict keys. The server only
keys its tables by argument values, which on every claim-relevant path are
strings; structural equality is faithful there. -/
def pyKeyBeq : PyVal → PyVal → Bool
  | .pyNone, .pyNone => true
  | .bool a, .bool b => a == b
  | .int a, .int b => a == b
  | .float a, .float b => a == b
  | .str a, .str b => a == b
  | _, _ => false

/-- Python `for x in v`: lists yield elements, strings yield characters,
dicts yield their keys, anything else raises `TypeError`. -/
def pyIter : PyVal → Except PyExn (List PyVal)
  | .list xs => .ok xs
  | .str s => .ok (s.data.map (fun c => .str (String.mk [c])))
  | .dict fs => .ok (fs.map (fun p => .str p.1))
  | v => .error (.typeError ("'" ++ typeName v ++ "' object is not iterable"))

/-- Lookup in a string-keyed association list (a Python dict in insertion
order): the first binding wins, as keys are unique by construction. -/
def strLookup {α : Type} : List (String × α) → String → Option α
  | [], _ => Option.none
  | (k, v) :: rest, key => if k == key then some v else strLookup rest key

/-- `d[k] = v` on a string-keyed dict: update in place, else append. -/
def strDictSet {α : Type} : List (String × α) → String → α → List (String × α)
  | [], key, v => [(key, v)]
  | (k, w) :: rest, key, v =>
    if k == key then (k, v) :: rest else (k, w) :: strDictSet rest key v

/-- `d[k]` on a string-keyed dict of `PyVal`s, raising `KeyError`. -/
def keyGet (d : List (String × PyVal)) (k : String) : Except PyExn PyVal :=
  match strLookup d k with
  | some v => .ok v
  | Option.none => .error (.keyError k)

/-- `v[k]` where `v` is an arbitrary value: subscripting a non-dict raises. -/
def pySubscript (v : PyVal) (k : String) : Except PyExn PyVal :=
  match v with
  | .dict fs => keyGet fs k
  | other => .error (.typeError ("'" ++ typeName other ++ "' object is not subscriptable"))

/-- Mapping a fallible step over a list, stopping at the first exception
(the effect of a Python loop whose body may raise). -/
def exMapM {α β : Type} (f : α → Except PyExn β) : List α → Except PyExn (List β)
  | [] => .ok []
  | a :: rest =>
    match f a with
    | .error e => .error e
    | .ok b =>
      match exMapM f rest with
      | .error e => .error e
      | .ok bs => .ok (b :: bs)

/-- Lookup in a `PyVal`-keyed dict (the `AGENTS` table). -/
def pyDictGet? {α : Type} : List (PyVal × α) → PyVal → Option α
  | [], _ => Option.none
  | (k, v) :: rest, key => if pyKeyBeq k key then some v else pyDictGet? rest key

/-- Key membership in a `PyVal`-keyed dict. -/
def pyDictHasKey {α : Type} (d : List (PyVal × α)) (k : PyVal) : Bool :=
  (pyDictGet? d k).isSome

/-- `k in d` for a `PyVal`-keyed dict: an unhashable key raises `TypeError`. -/
def pyMem {α : Type} (d : List (PyVal × α)) (k : PyVal) : Except PyExn Bool :=
  if pyHashable k then .ok (pyDictHasKey d k)
  else .error (.typeError ("unhashable type: '" ++ typeName k ++ "'"))

/-- `d[k] = v` on a `PyVal`-keyed dict: update in place, keeping the stored
key object, else append; an unhashable key raises `TypeError`. -/
def pyDictSet {α : Type} : List (PyVal × α) → PyVal → α → List (PyVal × α)
  | [], key, v => [(key, v)]
  | (k, w) :: rest, key, v =>
    if pyKeyBeq k key then (k, v) :: rest else (k, w) :: pyDictSet rest key v

/-- Python `sub in s` on strings, over the character lists. -/
def charsContains : List Char → List Char → Bool
  | needle, [] => needle.isEmpty
  | needle, c :: rest => needle.isPrefixOf (c :: rest) || charsContains needle rest

/-- Python `sub in hay` for strings. -/
def strContains (hay sub : String) : Bool :=
  charsContains sub.data hay.data

/-! ## Data model of the server's state and of the external framework -/

/-- The content of a `TextContent` item. The server builds its `text` field
either as `json.dumps(result, indent=2)` of a result dict (`json`) or as a
plain formatted string (`plain`); the constructor records which. -/
inductive Payload where
  | json (v : PyVal)
  | plain (s : String)

/-- Whether a payload was produced by `json.dumps` of a result value. -/
def Payload.isJson : Payload → Bool
  | .json _ => true
  | .plain _ => false

/-- `mcp.types.TextContent(type="text", text=...)`. -/
structure TextContent where
  type : String
  text : Payload

/-- A text-content item wrapping a JSON-serialized result value. -/
def tcJson (v : PyVal) : TextContent := ⟨"text", .json v⟩

/-- A text-content item wrapping a plain formatted string. -/
def tcPlain (s : String) : TextContent := ⟨"text", .plain s⟩

/-- A tool object held by a created agent: `google_search` is used as the
framework's ready-made tool instance, `load_web_page` is wrapped in a
`FunctionTool`, and `add_mcp_tools_to_agent` appends an `MCPToolset`. -/
inductive ResolvedTool where
  | googleSearch
  | loadWebPage
  | mcpToolset (command : PyVal) (args : PyVal) (filter : PyVal)

/-- A framework `LlmAgent` as this server constructs one. Construction is
modelled as total: whatever validation the external framework's own
constructor performs is framework behavior, not this repository's; the
server passes its arguments through unexamined. -/
inductive AdkAgent where
  | llm (name model instruction description : PyVal)
      (tools : List ResolvedTool) (subAgents : List AdkAgent)

/-- One entry of the global `AGENTS` dict: the constructed agent together
with its configuration dict. -/
structure AgentEntry where
  agent : AdkAgent
  config : List (String × PyVal)

/-- A session returned by `SESSION_SERVICE.create_session`. -/
structure Session where
  id : String
  appName : String
  userId : PyVal

/-- The server's global mutable state: the `AGENTS` and `SESSIONS` dicts.
`AGENTS` is keyed by the caller-supplied agent name; `SESSIONS` by the
string `f"{agent_name}_{session_id}"`. -/
structure ServerState where
  agents : List (PyVal × AgentEntry)
  sessions : List (String × Session)

/-- A ghost record of one call the server makes into the external
`google.adk` framework. -/
inductive FrameworkCall where
  | llmAgentNew (name model instruction description : PyVal)
      (tools : List ResolvedTool) (subAgents : List AdkAgent)
  | createSession (appName : String) (userId : PyVal)
  | runnerRun (sessionId : String) (userId : PyVal) (message : PyVal)
  | googleSearchRun (query : PyVal) (numResults : PyVal)
  | loadWebPageRun (url : PyVal)
  | mcpToolsetNew (command : PyVal) (args : PyVal) (filter : PyVal)

/-- One part of an event's content, as the handler reads it: `text` is
`some t` when the part has a text attribute to append. -/
structure EvPart where
  text : Option String

/-- The content attached to a framework event. -/
structure EvContent where
  parts : List EvPart

/-- An event yielded by the framework runner, as `run_adk_agent` and
`evaluate_adk_agent` consume it: only its optional content matters. -/
structure Event where
  content : Option EvContent

/-- The external framework's responses over the span of one handled call:
the session id `create_session` assigns, the events (or exception) of a
`runner.run_async`, the per-test-case evaluation response text (or
exception), and the results of the built-in tools. The handlers are pure
functions of the state, the arguments and this record. -/
structure Framework where
  newSessionId : String
  runEvents : Except String (List Event)
  evalOutcome : Nat → Except String String
  searchResult : Except String PyVal
  loadResult : Except String PyVal
  mcpToolsetOk : Except String Unit

/-- A trivial framework environment, for concrete evaluations. -/
def fwNull : Framework :=
  ⟨"session-1", .ok [], fun _ => .ok "", .ok .pyNone, .ok .pyNone, .ok ()⟩

/-- What every handler returns: the state after the call, the trace of
framework calls it made, and either its `List[TextContent]` result or the
exception it raised. -/
abbrev HandlerOut : Type :=
  ServerState × List FrameworkCall × Except PyExn (List TextContent)

/-! ## The handlers, one per registered operation -/

/-- The server's `available_tools` mapping in `create_adk_agent`: a
requested tool name resolves to a tool instance, anything else is skipped
with a warning. -/
def resolveTool : PyVal → Option ResolvedTool
  | .str "google_search" => some .googleSearch
  | .str "load_web_page" => some .loadWebPage
  | _ => Option.none

/-- The `if tools is None: tools = []` normalization at the head of
`create_adk_agent`. -/
def normTools : PyVal → PyVal
  | .pyNone => .list []
  | t => t

/-- The `AGENTS[name]` entry `create_adk_agent` stores: the constructed
agent along with the configuration dict. -/
def mkCreatedEntry (name model instruction description toolsNorm : PyVal)
    (resolved : List ResolvedTool) : AgentEntry :=
  AgentEntry.mk (AdkAgent.llm name model instruction description resolved [])
    [("name", name), ("model", model), ("instruction", instruction),
     ("description", description), ("tools", toolsNorm)]

/-- `create_adk_agent`: resolve the requested tool names, construct the
framework `LlmAgent`, store it in `AGENTS` under `name` together with its
configuration, and return a success JSON echoing name, model, description
and the count of resolved tools. -/
def create_adk_agent (st : ServerState) (name instruction model description tools : PyVal) :
    HandlerOut :=
  let tools' := normTools tools
  match pyIter tools' with
  | .error e => (st, [], .error e)
  | .ok toolList =>
    let agent_tools := toolList.filterMap resolveTool
    if pyHashable name then
      let entry : AgentEntry :=
        mkCreatedEntry name model instruction description tools' agent_tools
      let result : PyVal := .dict
        [("status", .str "success"),
         ("message", .str ("Successfully created agent '" ++ pyStr name ++ "'")),
         ("agent", .dict
           [("name", name), ("model", model), ("description", description),
            ("tools_count", .int agent_tools.length)])]
      ({ st with agents := pyDictSet st.agents name entry },
       [.llmAgentNew name model instruction description agent_tools []],
       .ok [tcJson result])
    else
      (st, [.llmAgentNew name model instruction description agent_tools []],
       .error (.typeError ("unhashable type: '" ++ typeName name ++ "'")))

/-- `list_adk_agents`: report name, model, description and tools of every
stored agent (a `KeyError` from a config missing a key propagates). -/
def list_adk_agents (st : ServerState) : HandlerOut :=
  match exMapM (fun p =>
      match keyGet p.2.config "model" with
      | .error e => .error e
      | .ok m =>
        match keyGet p.2.config "description" with
        | .error e => .error e
        | .ok d =>
          match keyGet p.2.config "tools" with
          | .error e => .error e
          | .ok t => .ok (PyVal.dict
              [("name", p.1), ("model", m), ("description", d), ("tools", t)]))
      st.agents with
  | .error e => (st, [], .error e)
  | .ok infos =>
    (st, [], .ok [tcJson (.dict
      [("status", .str "success"), ("agents", .list infos),
       ("total_count", .int infos.length)])])

/-- `get_adk_agent_info`: an unknown name gets an error JSON, a known one
the stored configuration echoed back. -/
def get_adk_agent_info (st : ServerState) (agent_name : PyVal) : HandlerOut :=
  match pyMem st.agents agent_name with
  | .error e => (st, [], .error e)
  | .ok false =>
    (st, [], .ok [tcJson (.dict
      [("error", .str ("Agent '" ++ pyStr agent_name ++ "' not found"))])])
  | .ok true =>
    match pyDictGet? st.agents agent_name with
    | Option.none => (st, [], .error (.keyError (pyStr agent_name)))
    | some entry =>
      match keyGet entry.config "name" with
      | .error e => (st, [], .error e)
      | .ok n =>
        match keyGet entry.config "model" with
        | .error e => (st, [], .error e)
        | .ok m =>
          match keyGet entry.config "instruction" with
          | .error e => (st, [], .error e)
          | .ok i =>
            match keyGet entry.config "description" with
            | .error e => (st, [], .error e)
            | .ok d =>
              match keyGet entry.config "tools" with
              | .error e => (st, [], .error e)
              | .ok t =>
                (st, [], .ok [tcJson (.dict
                  [("status", .str "success"),
                   ("agent", .dict
                     [("name", n), ("model", m), ("instruction", i),
                      ("description", d), ("tools", t), ("created", .bool true)])])])

/-- The text a single event contributes to the response: the concatenation
of the text of those parts that carry one, or nothing when the event has no
truthy content. -/
def eventText (e : Event) : String :=
  match e.content with
  | Option.none => ""
  | some c => String.join (c.parts.map (fun p => p.text.getD ""))

/-- `final_response` in `run_adk_agent`: the concatenation over all events. -/
def concatEventTexts (evts : List Event) : String :=
  String.join (evts.map eventText)

/-- `run_adk_agent`: look the agent up, create or reuse the session keyed
`f"{agent_name}_{session_id}"`, run the framework runner, and return a
success JSON echoing the inputs with the concatenated response text; a
framework exception inside the try block becomes an error JSON. -/
def run_adk_agent (st : ServerState) (fw : Framework)
    (agent_name message session_id user_id : PyVal) : HandlerOut :=
  match pyMem st.agents agent_name with
  | .error e => (st, [], .error e)
  | .ok false =>
    (st, [], .ok [tcJson (.dict
      [("error", .str ("Agent '" ++ pyStr agent_name ++ "' not found"))])])
  | .ok true =>
    let session_key := pyStr agent_name ++ "_" ++ pyStr session_id
    let appName := "adk-mcp-" ++ pyStr agent_name
    let sessionStep : ServerState × List FrameworkCall × Session :=
      match strLookup st.sessions session_key with
      | Option.none =>
        let s : Session := ⟨fw.newSessionId, appName, user_id⟩
        ({ st with sessions := strDictSet st.sessions session_key s },
         [.createSession appName user_id], s)
      | some s => (st, [], s)
    let st1 := sessionStep.1
    let tr1 := sessionStep.2.1
    let session := sessionStep.2.2
    let tr := tr1 ++ [.runnerRun session.id user_id message]
    match fw.runEvents with
    | .error e =>
      (st1, tr, .ok [tcJson (.dict [("error", .str ("Failed to run agent: " ++ e))])])
    | .ok evts =>
      (st1, tr, .ok [tcJson (.dict
        [("status", .str "success"),
         ("agent_name", agent_name),
         ("user_message", message),
         ("agent_response", .str (concatEventTexts evts)),
         ("session_id", session_id),
         ("events_count", .int evts.length)])])

/-- `list_available_tools`: a fixed catalogue. -/
def list_available_tools (st : ServerState) : HandlerOut :=
  let catalogue : PyVal := .dict
    [("google_search", .dict
       [("name", .str "google_search"),
        ("description", .str "Search the web using Google Search API"),
        ("type", .str "function_tool")]),
     ("load_web_page", .dict
       [("name", .str "load_web_page"),
        ("description", .str "Load and extract content from web pages"),
        ("type", .str "function_tool")]),
     ("agent_tool", .dict
       [("name", .str "agent_tool"),
        ("description", .str "Tool that wraps another agent as a tool"),
        ("type", .str "agent_tool")])]
  (st, [], .ok [tcJson (.dict
    [("status", .str "success"), ("available_tools", catalogue),
     ("total_count", .int 3)])])

/-- One iteration of `evaluate_adk_agent`'s loop over test cases: both keys
of the test case are read (a missing one raises `KeyError` in the `except`
handler as well, so it propagates), the framework's response for case `i`
is consulted, and the result row is built; a framework exception, or a
non-string expected output (whose `.lower()` raises), yields a failed row
with an error text. -/
def caseRow (fw : Framework) (i : Nat) (tc : PyVal) : Except PyExn PyVal :=
  match pySubscript tc "input" with
  | .error e => .error e
  | .ok inp =>
  match pySubscript tc "expected_output" with
  | .error e => .error e
  | .ok expected =>
  match fw.evalOutcome i with
  | .error msg =>
    .ok (.dict [("test_case", .int (i + 1)), ("input", inp), ("expected", expected),
                ("actual", .str ("Error: " ++ msg)), ("passed", .bool false)])
  | .ok resp =>
    match expected with
    | .str es =>
      .ok (.dict [("test_case", .int (i + 1)), ("input", inp), ("expected", expected),
                  ("actual", .str resp),
                  ("passed", .bool (strContains resp.toLower es.toLower))])
    | other =>
      .ok (.dict [("test_case", .int (i + 1)), ("input", inp), ("expected", expected),
                  ("actual", .str ("Error: '" ++ typeName other ++
                    "' object has no attribute 'lower'")),
                  ("passed", .bool false)])

/-- `r["passed"]` of a result row, as the passed-count sum reads it. -/
def rowPassed (r : PyVal) : Bool :=
  match r with
  | .dict fs =>
    match strLookup fs "passed" with
    | some v => pyTruthy v
    | Option.none => false
  | _ => false

/-- `evaluate_adk_agent`: run every test case against the framework, count
the passed rows, and report `passed_count / len(test_cases) if test_cases
else 0` as the success rate (the float division modelled exactly in `Rat`). -/
def evaluate_adk_agent (st : ServerState) (fw : Framework)
    (agent_name test_cases : PyVal) : HandlerOut :=
  match pyMem st.agents agent_name with
  | .error e => (st, [], .error e)
  | .ok false =>
    (st, [], .ok [tcJson (.dict
      [("error", .str ("Agent '" ++ pyStr agent_name ++ "' not found"))])])
  | .ok true =>
    match pyIter test_cases with
    | .error e => (st, [], .error e)
    | .ok cases =>
      let tr := cases.map (fun _ =>
        FrameworkCall.createSession ("eval-" ++ pyStr agent_name) (.str "evaluator"))
      match exMapM (fun p => caseRow fw p.1 p.2) cases.enum with
      | .error e => (st, tr, .error e)
      | .ok rows =>
        let passed := (rows.filter rowPassed).length
        let total := cases.length
        let rate : PyVal :=
          if pyTruthy test_cases then .float ((passed : ℚ) / (total : ℚ)) else .int 0
        (st, tr, .ok [tcJson (.dict
          [("status", .str "success"), ("agent_name", agent_name),
           ("total_tests", .int total), ("passed_tests", .int passed),
           ("success_rate", rate), ("results", .list rows)])])

/-- The `missing_agents` list comprehension of `create_multi_agent_system`:
the requested sub-agent names absent from `AGENTS`, in request order. -/
def missingOf (st : ServerState) : List PyVal → Except PyExn (List PyVal)
  | [] => .ok []
  | n :: rest =>
    match pyMem st.agents n with
    | .error e => .error e
    | .ok b =>
      match missingOf st rest with
      | .error e => .error e
      | .ok more => .ok (if b then more else n :: more)

/-- `create_multi_agent_system`: refuse with an error JSON naming the
missing sub-agents when any is absent; otherwise construct the coordinator
`LlmAgent` over the stored sub-agent instances and store it. -/
def create_multi_agent_system (st : ServerState)
    (coordinator_name coordinator_instruction sub_agents model : PyVal) : HandlerOut :=
  match pyIter sub_agents with
  | .error e => (st, [], .error e)
  | .ok names =>
    match missingOf st names with
    | .error e => (st, [], .error e)
    | .ok missing =>
      if missing.isEmpty then
        let subInstances := names.filterMap (fun n => (pyDictGet? st.agents n).map (·.agent))
        let count := names.length
        let coordinator := AdkAgent.llm coordinator_name model coordinator_instruction
          (.str ("Coordinator agent managing " ++ toString count ++ " sub-agents"))
          [] subInstances
        let tr := [FrameworkCall.llmAgentNew coordinator_name model coordinator_instruction
          (.str ("Coordinator agent managing " ++ toString count ++ " sub-agents"))
          [] subInstances]
        if pyHashable coordinator_name then
          let entry : AgentEntry :=
            ⟨coordinator,
             [("name", coordinator_name), ("model", model),
              ("instruction", coordinator_instruction),
              ("description", .str ("Multi-agent coordinator with " ++ toString count ++
                " sub-agents")),
              ("sub_agents", sub_agents), ("type", .str "multi_agent_coordinator")]⟩
          ({ st with agents := pyDictSet st.agents coordinator_name entry }, tr,
           .ok [tcJson (.dict
             [("status", .str "success"),
              ("message", .str ("Successfully created multi-agent system '" ++
                pyStr coordinator_name ++ "'")),
              ("coordinator", .dict
                [("name", coordinator_name), ("model", model),
                 ("sub_agents", sub_agents), ("sub_agent_count", .int count)])])])
        else
          (st, tr, .error (.typeError ("unhashable type: '" ++
            typeName coordinator_name ++ "'")))
      else
        (st, [], .ok [tcJson (.dict
          [("error", .str ("Missing sub-agents: " ++ pyRepr (.list missing) ++
            ". Create them first."))])])

/-- `add_mcp_tools_to_agent`: construct an `MCPToolset` (its truthiness
test turns an empty `tool_filter` into `None`), append it to the stored
agent's tools and record the server parameters in the config. -/
def add_mcp_tools_to_agent (st : ServerState) (fw : Framework)
    (agent_name mcp_server_command mcp_server_args tool_filter : PyVal) : HandlerOut :=
  match pyMem st.agents agent_name with
  | .error e => (st, [], .error e)
  | .ok false =>
    (st, [], .ok [tcJson (.dict
      [("error", .str ("Agent '" ++ pyStr agent_name ++ "' not found"))])])
  | .ok true =>
    let tf := if pyTruthy tool_filter then tool_filter else PyVal.pyNone
    let tr := [FrameworkCall.mcpToolsetNew mcp_server_command mcp_server_args tf]
    match fw.mcpToolsetOk with
    | .error e =>
      (st, tr, .ok [tcJson (.dict
        [("error", .str ("Failed to add MCP tools: " ++ e))])])
    | .ok _ =>
      match pyDictGet? st.agents agent_name with
      | Option.none => (st, tr, .error (.keyError (pyStr agent_name)))
      | some entry =>
        let agent' := match entry.agent with
          | .llm n m i d ts sas =>
            AdkAgent.llm n m i d
              (ts ++ [.mcpToolset mcp_server_command mcp_server_args tf]) sas
        let config' := strDictSet entry.config "mcp_tools"
          (.dict [("command", mcp_server_command), ("args", mcp_server_args),
                  ("filter", tf)])
        ({ st with agents := pyDictSet st.agents agent_name ⟨agent', config'⟩ }, tr,
         .ok [tcJson (.dict
           [("status", .str "success"),
            ("message", .str ("Successfully added MCP tools to agent '" ++
              pyStr agent_name ++ "'")),
            ("mcp_server", .dict
              [("command", mcp_server_command), ("args", mcp_server_args),
               ("filter", tf)])])])

/-- `search_web`: forward the query to the framework's `google_search`
tool; a tool exception becomes an error JSON. -/
def search_web (st : ServerState) (fw : Framework) (query num_results : PyVal) :
    HandlerOut :=
  let tr := [FrameworkCall.googleSearchRun query num_results]
  match fw.searchResult with
  | .ok r => (st, tr, .ok [tcJson r])
  | .error e =>
    (st, tr, .ok [tcJson (.dict [("error", .str ("Search failed: " ++ e))])])

/-- `load_webpage_content`: forward the URL to the wrapped `load_web_page`
tool; a tool exception becomes an error JSON. -/
def load_webpage_content (st : ServerState) (fw : Framework) (url : PyVal) :
    HandlerOut :=
  let tr := [FrameworkCall.loadWebPageRun url]
  match fw.loadResult with
  | .ok r => (st, tr, .ok [tcJson r])
  | .error e =>
    (st, tr, .ok [tcJson (.dict
      [("error", .str ("Failed to load webpage: " ++ e))])])

/-- The static `docs` dictionary of `get_adk_documentation`. -/
def adkDocs : List (String × PyVal) :=
  [("agents", .dict
     [("description", .str "ADK supports multiple types of agents"),
      ("types", .list
        [.str "LlmAgent - Basic LLM-powered agent",
         .str "SequentialAgent - Runs sub-agents in sequence",
         .str "ParallelAgent - Runs sub-agents in parallel",
         .str "LoopAgent - Runs sub-agents in a loop until condition met",
         .str "CustomAgent - Build your own agent logic"]),
      ("features", .list
        [.str "Multi-agent systems", .str "Tool integration",
         .str "Memory and state management", .str "Streaming support",
         .str "Evaluation capabilities"])]),
   ("tools", .dict
     [("description", .str "ADK provides a rich ecosystem of tools"),
      ("categories", .list
        [.str "Built-in tools (google_search, load_web_page, etc.)",
         .str "Google Cloud tools (BigQuery, Vertex AI, etc.)",
         .str "Third-party tools (LangChain, CrewAI)",
         .str "MCP tools (Model Context Protocol)",
         .str "OpenAPI tools",
         .str "Custom function tools"]),
      ("features", .list
        [.str "Authentication support", .str "Async execution",
         .str "Tool context and state", .str "Error handling"])]),
   ("deployment", .dict
     [("description", .str "ADK supports multiple deployment options"),
      ("options", .list
        [.str "Local development with 'adk web'",
         .str "Google Cloud Run",
         .str "Google Kubernetes Engine (GKE)",
         .str "Vertex AI Agent Engine"]),
      ("features", .list
        [.str "Containerization support", .str "Environment configuration",
         .str "Scaling capabilities", .str "Monitoring and logging"])]),
   ("evaluation", .dict
     [("description", .str "ADK provides comprehensive evaluation capabilities"),
      ("features", .list
        [.str "Automated testing with test datasets",
         .str "Performance metrics",
         .str "Comparison between agent versions",
         .str "Custom evaluation criteria",
         .str "Integration with development workflow"])])]

/-- `get_adk_documentation`: a known topic (case-insensitively) gets its
documentation, an unknown one the list of available topics; `topic.lower()`
on a non-string raises `AttributeError`. -/
def get_adk_documentation (st : ServerState) (topic : PyVal) : HandlerOut :=
  match topic with
  | .str s =>
    match strLookup adkDocs s.toLower with
    | some doc =>
      (st, [], .ok [tcJson (.dict
        [("status", .str "success"), ("topic", .str s), ("documentation", doc)])])
    | Option.none =>
      (st, [], .ok [tcJson (.dict
        [("status", .str "success"),
         ("available_topics", .list (adkDocs.map (fun p => .str p.1))),
         ("message", .str ("Topic '" ++ s ++
           "' not found. Available topics listed above."))])])
  | v =>
    (st, [], .error (.attributeError ("'" ++ typeName v ++
      "' object has no attribute 'lower'")))

/-- `get_server_version`: version data from `version.py` plus the static
capability description. -/
def get_server_version (st : ServerState) : HandlerOut :=
  (st, [], .ok [tcJson (.dict
    [("status", .str "success"),
     ("server_name", .str "Google ADK MCP Server"),
     ("version", .str "1.0.0"),
     ("version_info", .dict
       [("major", .int 1), ("minor", .int 0), ("patch", .int 0),
        ("prerelease", .pyNone), ("build", .pyNone)]),
     ("mcp_protocol", .str "1.0"),
     ("description", .str "MCP server exposing Google Agent Development Kit functionality"),
     ("capabilities", .list
       [.str "Agent creation and management",
        .str "Multi-agent systems",
        .str "Tool integration (Google Search, web scraping, MCP tools)",
        .str "Agent evaluation",
        .str "Session management",
        .str "Real-time agent execution"]),
     ("supported_models", .list
       [.str "gemini-2.0-flash", .str "gemini-1.5-pro", .str "gemini-1.5-flash"]),
     ("documentation", .str "https://github.com/your-username/google-adk-mcp-server")])])

/-! ## The declared tool schemas (`handle_list_tools`) -/

/-- One property of a tool's declared JSON input schema: its name, declared
type, description, optional declared default, and (for arrays) the item
type; `evaluate_adk_agent`'s nested item object schema is recorded by its
item type alone. -/
structure SchemaProp where
  name : String
  jtype : String
  description : String
  default : Option PyVal
  itemsType : Option String

/-- A tool's declared input schema. `additionalProperties` is `false` only
where the source declares it so, else JSON Schema's default `true`. -/
structure InputSchema where
  properties : List SchemaProp
  required : List String
  additionalProperties : Bool

/-- A registered tool as `handle_list_tools` declares it. -/
structure McpTool where
  name : String
  description : String
  inputSchema : InputSchema

/-- The list returned by `handle_list_tools`: the twelve registered
operations with their declared schemas. -/
def handle_list_tools : List McpTool :=
  [⟨"create_adk_agent",
    "Create a new Google ADK agent with specified configuration",
    ⟨[⟨"name", "string", "Name for the agent", Option.none, Option.none⟩,
      ⟨"model", "string", "Model to use (e.g., 'gemini-2.0-flash', 'gemini-1.5-pro')",
        some (.str "gemini-2.0-flash"), Option.none⟩,
      ⟨"instruction", "string", "System instruction for the agent", Option.none, Option.none⟩,
      ⟨"description", "string", "Description of what the agent does", Option.none, Option.none⟩,
      ⟨"tools", "array", "List of tool names to include with the agent",
        some (.list []), some "string"⟩],
     ["name", "instruction"], true⟩⟩,
   ⟨"list_adk_agents", "List all created ADK agents", ⟨[], [], false⟩⟩,
   ⟨"get_adk_agent_info", "Get detailed information about a specific ADK agent",
    ⟨[⟨"agent_name", "string", "Name of the agent to get info for", Option.none, Option.none⟩],
     ["agent_name"], true⟩⟩,
   ⟨"run_adk_agent", "Run an ADK agent with a user message and get the response",
    ⟨[⟨"agent_name", "string", "Name of the agent to run", Option.none, Option.none⟩,
      ⟨"message", "string", "User message to send to the agent", Option.none, Option.none⟩,
      ⟨"session_id", "string", "Session ID to maintain conversation history (optional)",
        some (.str "default"), Option.none⟩,
      ⟨"user_id", "string", "User ID for the session", some (.str "user"), Option.none⟩],
     ["agent_name", "message"], true⟩⟩,
   ⟨"list_available_tools", "List all available ADK tools that can be added to agents",
    ⟨[], [], false⟩⟩,
   ⟨"evaluate_adk_agent", "Evaluate an ADK agent using a test dataset",
    ⟨[⟨"agent_name", "string", "Name of the agent to evaluate", Option.none, Option.none⟩,
      ⟨"test_cases", "array", "Array of test cases with input and expected output",
        Option.none, some "object"⟩],
     ["agent_name", "test_cases"], true⟩⟩,
   ⟨"create_multi_agent_system",
    "Create a multi-agent system with a coordinator and sub-agents",
    ⟨[⟨"coordinator_name", "string", "Name for the coordinator agent", Option.none, Option.none⟩,
      ⟨"coordinator_instruction", "string", "Instruction for the coordinator agent",
        Option.none, Option.none⟩,
      ⟨"sub_agents", "array", "List of sub-agent names to include", Option.none, some "string"⟩,
      ⟨"model", "string", "Model to use for the coordinator",
        some (.str "gemini-2.0-flash"), Option.none⟩],
     ["coordinator_name", "coordinator_instruction", "sub_agents"], true⟩⟩,
   ⟨"add_mcp_tools_to_agent",
    "Add MCP tools from external servers to an existing ADK agent",
    ⟨[⟨"agent_name", "string", "Name of the agent to add tools to", Option.none, Option.none⟩,
      ⟨"mcp_server_command", "string", "Command to run the MCP server (e.g., 'npx')",
        Option.none, Option.none⟩,
      ⟨"mcp_server_args", "array", "Arguments for the MCP server command",
        Option.none, some "string"⟩,
      ⟨"tool_filter", "array", "Optional list of specific tools to include",
        some (.list []), some "string"⟩],
     ["agent_name", "mcp_server_command", "mcp_server_args"], true⟩⟩,
   ⟨"search_web", "Perform a web search using Google Search",
    ⟨[⟨"query", "string", "Search query", Option.none, Option.none⟩,
      ⟨"num_results", "integer", "Number of results to return",
        some (.int 5), Option.none⟩],
     ["query"], true⟩⟩,
   ⟨"load_webpage_content", "Load and extract content from a webpage URL",
    ⟨[⟨"url", "string", "URL of the webpage to load", Option.none, Option.none⟩],
     ["url"], true⟩⟩,
   ⟨"get_adk_documentation",
    "Get information about ADK features, capabilities, and usage",
    ⟨[⟨"topic", "string",
       "Topic to get documentation for (agents, tools, evaluation, deployment, etc.)",
       Option.none, Option.none⟩],
     ["topic"], true⟩⟩,
   ⟨"get_server_version", "Get version information for the Google ADK MCP Server",
    ⟨[], [], false⟩⟩]

/-- The registered operation names, in registration order. -/
def toolNames : List String := handle_list_tools.map McpTool.name

/-- The declared schema of a registered operation. -/
def schemaFor (n : String) : Option InputSchema :=
  (handle_list_tools.find? (fun t => t.name == n)).map McpTool.inputSchema

/-- The declared required properties of a registered operation. -/
def requiredOf (n : String) : List String :=
  match schemaFor n with
  | some s => s.required
  | Option.none => []

/-- The declared default of one property of a registered operation. -/
def schemaDefault (op prop : String) : Option PyVal :=
  match schemaFor op with
  | some s => ((s.properties.find? (fun p => p.name == prop)).map SchemaProp.default).join
  | Option.none => Option.none

/-! ## Argument binding and dispatch (`handle_call_tool`) -/

/-- One parameter of a handler's Python signature: its name and default. -/
structure Param where
  name : String
  default : Option PyVal

/-- The kwargs as `handle_call_tool` receives them: a JSON object. -/
def Args : Type := List (String × PyVal)

/-- `arguments[k]` if present. -/
def lookupArg (args : Args) (k : String) : Option PyVal := strLookup args k

/-- Binding one parameter in `handler(**arguments)`: the argument if
passed, else the declared default, else `TypeError`. -/
def bindParam (args : Args) (p : Param) : Except PyExn (String × PyVal) :=
  match lookupArg args p.name with
  | some v => .ok (p.name, v)
  | Option.none =>
    match p.default with
    | some d => .ok (p.name, d)
    | Option.none =>
      .error (.typeError ("missing a required keyword argument: '" ++ p.name ++ "'"))

/-- `handler(**arguments)` also raises on a keyword the signature lacks. -/
def checkUnexpected (params : List Param) (args : Args) : Except PyExn Unit :=
  match args.find? (fun a => !(params.any (fun p => p.name == a.1))) with
  | some a => .error (.typeError ("got an unexpected keyword argument '" ++ a.1 ++ "'"))
  | Option.none => .ok ()

/-- The full binding of `handler(**arguments)`: every parameter resolved to
the passed value or its default. -/
def bindArgs (params : List Param) (args : Args) : Except PyExn (List (String × PyVal)) :=
  match checkUnexpected params args with
  | .error e => .error e
  | .ok _ => exMapM (bindParam args) params

/-- Reading a bound parameter out of a successful binding (total: a
successful binding holds every parameter). -/
def envGet (env : List (String × PyVal)) (k : String) : PyVal :=
  (strLookup env k).getD .pyNone

/-- The Python parameter list of `create_adk_agent`. -/
def createAdkAgentParams : List Param :=
  [⟨"name", Option.none⟩, ⟨"instruction", Option.none⟩,
   ⟨"model", some (.str "gemini-2.0-flash")⟩, ⟨"description", some (.str "")⟩,
   ⟨"tools", some .pyNone⟩]

/-- The Python parameter list of `get_adk_agent_info`. -/
def getAdkAgentInfoParams : List Param := [⟨"agent_name", Option.none⟩]

/-- The Python parameter list of `run_adk_agent`. -/
def runAdkAgentParams : List Param :=
  [⟨"agent_name", Option.none⟩, ⟨"message", Option.none⟩,
   ⟨"session_id", some (.str "default")⟩, ⟨"user_id", some (.str "user")⟩]

/-- The Python parameter list of `evaluate_adk_agent`. -/
def evaluateAdkAgentParams : List Param :=
  [⟨"agent_name", Option.none⟩, ⟨"test_cases", Option.none⟩]

/-- The Python parameter list of `create_multi_agent_system`. -/
def createMultiAgentSystemParams : List Param :=
  [⟨"coordinator_name", Option.none⟩, ⟨"coordinator_instruction", Option.none⟩,
   ⟨"sub_agents", Option.none⟩, ⟨"model", some (.str "gemini-2.0-flash")⟩]

/-- The Python parameter list of `add_mcp_tools_to_agent`. -/
def addMcpToolsParams : List Param :=
  [⟨"agent_name", Option.none⟩, ⟨"mcp_server_command", Option.none⟩,
   ⟨"mcp_server_args", Option.none⟩, ⟨"tool_filter", some .pyNone⟩]

/-- The Python parameter list of `search_web`. -/
def searchWebParams : List Param :=
  [⟨"query", Option.none⟩, ⟨"num_results", some (.int 5)⟩]

/-- The Python parameter list of `load_webpage_content`. -/
def loadWebpageContentParams : List Param := [⟨"url", Option.none⟩]

/-- The Python parameter list of `get_adk_documentation`. -/
def getAdkDocumentationParams : List Param := [⟨"topic", Option.none⟩]

/-- The `if name == ... elif ...` chain of `handle_call_tool`: `some`
exactly when the name matches a registered operation, in which case the
arguments are bound against the handler's signature and the handler runs. -/
def callNamedHandler (st : ServerState) (fw : Framework) (name : String) (args : Args) :
    Option HandlerOut :=
  if name = "create_adk_agent" then some (
    match bindArgs createAdkAgentParams args with
    | .error e => (st, [], .error e)
    | .ok env =>
      create_adk_agent st (envGet env "name") (envGet env "instruction")
        (envGet env "model") (envGet env "description") (envGet env "tools"))
  else if name = "list_adk_agents" then some (
    match bindArgs [] args with
    | .error e => (st, [], .error e)
    | .ok _ => list_adk_agents st)
  else if name = "get_adk_agent_info" then some (
    match bindArgs getAdkAgentInfoParams args with
    | .error e => (st, [], .error e)
    | .ok env => get_adk_agent_info st (envGet env "agent_name"))
  else if name = "run_adk_agent" then some (
    match bindArgs runAdkAgentParams args with
    | .error e => (st, [], .error e)
    | .ok env =>
      run_adk_agent st fw (envGet env "agent_name") (envGet env "message")
        (envGet env "session_id") (envGet env "user_id"))
  else if name = "list_available_tools" then some (
    match bindArgs [] args with
    | .error e => (st, [], .error e)
    | .ok _ => list_available_tools st)
  else if name = "evaluate_adk_agent" then some (
    match bindArgs evaluateAdkAgentParams args with
    | .error e => (st, [], .error e)
    | .ok env => evaluate_adk_agent st fw (envGet env "agent_name") (envGet env "test_cases"))
  else if name = "create_multi_agent_system" then some (
    match bindArgs createMultiAgentSystemParams args with
    | .error e => (st, [], .error e)
    | .ok env =>
      create_multi_agent_system st (envGet env "coordinator_name")
        (envGet env "coordinator_instruction") (envGet env "sub_agents")
        (envGet env "model"))
  else if name = "add_mcp_tools_to_agent" then some (
    match bindArgs addMcpToolsParams args with
    | .error e => (st, [], .error e)
    | .ok env =>
      add_mcp_tools_to_agent st fw (envGet env "agent_name")
        (envGet env "mcp_server_command") (envGet env "mcp_server_args")
        (envGet env "tool_filter"))
  else if name = "search_web" then some (
    match bindArgs searchWebParams args with
    | .error e => (st, [], .error e)
    | .ok env => search_web st fw (envGet env "query") (envGet env "num_results"))
  else if name = "load_webpage_content" then some (
    match bindArgs loadWebpageContentParams args with
    | .error e => (st, [], .error e)
    | .ok env => load_webpage_content st fw (envGet env "url"))
  else if name = "get_adk_documentation" then some (
    match bindArgs getAdkDocumentationParams args with
    | .error e => (st, [], .error e)
    | .ok env => get_adk_documentation st (envGet env "topic"))
  else if name = "get_server_version" then some (
    match bindArgs [] args with
    | .error e => (st, [], .error e)
    | .ok _ => get_server_version st)
  else Option.none

/-- The `except Exception` at the call boundary: a successful handler's
text contents pass through, an exception becomes a single plain-text item
`f"Error executing {name}: {str(e)}"`. -/
def boundaryWrap (name : String) : Except PyExn (List TextContent) → List TextContent
  | .ok r => r
  | .error e => [tcPlain ("Error executing " ++ name ++ ": " ++ exnStr e)]

/-- `handle_call_tool`: dispatch on the name; an unmatched name raises
`ValueError(f"Unknown tool: {name}")`, which the same boundary catch turns
into the plain-text error item. -/
def handle_call_tool (st : ServerState) (fw : Framework) (name : String) (args : Args) :
    ServerState × List FrameworkCall × List TextContent :=
  match callNamedHandler st fw name args with
  | some (st', tr, out) => (st', tr, boundaryWrap name out)
  | Option.none =>
    (st, [], [tcPlain ("Error executing " ++ name ++ ": Unknown tool: " ++ name)])

/-! ## Schema conformance, as the spec describes validation

These two definitions follow the claim's words ("arguments ... conform to
the declared types"), to be compared with what the dispatch code does. -/

/-- Whether a value is of a JSON-schema-declared type. -/
def valMatchesType (jtype : String) (v : PyVal) : Bool :=
  if jtype == "string" then match v with | .str _ => true | _ => false
  else if jtype == "integer" then match v with | .int _ => true | _ => false
  else if jtype == "array" then match v with | .list _ => true | _ => false
  else if jtype == "object" then match v with | .dict _ => true | _ => false
  else true

/-- Whether JSON-shaped arguments conform to a declared input schema: every
required property present, every passed property of its declared type, and
extra properties only where the schema admits them. -/
def conformsToSchema (s : InputSchema) (args : Args) : Bool :=
  s.required.all (fun r => (lookupArg args r).isSome) &&
  args.all (fun a =>
    match s.properties.find? (fun p => p.name == a.1) with
    | some p => valMatchesType p.jtype a.2
    | Option.none => s.additionalProperties)

/-! ## The parallel-agent unit test

`ParallelAgent` itself is `google.adk` framework code, not among the
repository's files; only its unit test (`test_parallel_agent.py`) is. The
scheduler is therefore modelled from the spec, and the testing sub-agent is
translated from the test file. -/

/-- A `_TestingAgent` of the test: a name and the delay before its event. -/
structure SubAgentSpec where
  name : String
  delay : ℚ

/-- An event as the test observes it: author, branch and content text. -/
structure PEvent where
  author : String
  branch : String
  text : String

/-- `_TestingAgent._run_async_impl` from the repository's test: sleep for
`delay`, then yield a single event authored by the agent, on the invocation
context's branch, with text `f"Hello, async {self.name}!"`; each event is
paired with its completion time for the scheduler model. -/
def testingAgentRun (ctxBranch : String) (a : SubAgentSpec) : List (ℚ × PEvent) :=
  [(a.delay, ⟨a.name, ctxBranch, "Hello, async " ++ a.name ++ "!"⟩)]

/-- Insertion by completion time, keeping submission order between equal
times (the earlier-inserted event stays in front). -/
def insertByTime (x : ℚ × PEvent) : List (ℚ × PEvent) → List (ℚ × PEvent)
  | [] => [x]
  | y :: ys => if x.1 < y.1 then x :: y :: ys else y :: insertByTime x ys

/-- Modelled from the spec: `ParallelAgent.run_async` is external framework
code missing from the repository's files (only its unit test is present).
Per the spec, the framework scheduler runs the sub-agents as independently
scheduled concurrent tasks, each on an isolated branch tagged with the
sub-agent's stable identity (the parallel agent's branch extended by the
sub-agent's name), and delivers their events in completion order, which can
differ from submission order when an earlier-submitted sub-agent is
delayed; submission order breaks ties. -/
def parallelRunAsync (parallelName : String) (subs : List SubAgentSpec) : List PEvent :=
  (((subs.map (fun s => testingAgentRun (parallelName ++ "." ++ s.name) s)).flatten).foldl
    (fun acc x => insertByTime x acc) []).map Prod.snd

/-- `str.endswith(suffix)`, stated as the existence of a prefix. -/
def endsWithStr (s suffix : String) : Prop := ∃ pre, s = pre ++ suffix

/-! ## Helper lemmas -/

theorem pyKeyBeq_refl (k : PyVal) (h : pyHashable k = true) : pyKeyBeq k k = true := by
  cases k <;> simp_all [pyHashable, pyKeyBeq]

theorem pyStr_str (s : String) : pyStr (.str s) = s := rfl

theorem pyDictGet?_set_self {α : Type} (d : List (PyVal × α)) (k : PyVal) (v : α)
    (h : pyHashable k = true) : pyDictGet? (pyDictSet d k v) k = some v := by
  induction d with
  | nil => simp [pyDictSet, pyDictGet?, pyKeyBeq_refl k h]
  | cons p rest ih =>
    obtain ⟨k', v'⟩ := p
    by_cases hk : pyKeyBeq k' k = true
    · simp [pyDictSet, pyDictGet?, hk]
    · simp [pyDictSet, pyDictGet?, hk, ih]

theorem exMapM_ok_of_forall {α β : Type} (f : α → Except PyExn β) (l : List α)
    (h : ∀ a ∈ l, ∃ b, f a = .ok b) : ∃ bs, exMapM f l = .ok bs := by
  induction l with
  | nil => exact ⟨[], rfl⟩
  | cons a rest ih =>
    obtain ⟨b, hb⟩ := h a (List.mem_cons_self a rest)
    obtain ⟨bs, hbs⟩ := ih (fun x hx => h x (List.mem_cons_of_mem a hx))
    exact ⟨b :: bs, by simp [exMapM, hb, hbs]⟩

theorem exMapM_bindParam_error (params : List Param) (args : Args) (p : Param)
    (hp : p ∈ params) (hd : p.default = Option.none)
    (ha : lookupArg args p.name = Option.none) :
    ∃ e, exMapM (bindParam args) params = Except.error e := by
  induction params with
  | nil => cases hp
  | cons q rest ih =>
    rcases List.mem_cons.mp hp with h | h
    · subst h
      refine ⟨.typeError ("missing a required keyword argument: '" ++ p.name ++ "'"), ?_⟩
      simp [exMapM, bindParam, ha, hd]
    · cases hq : bindParam args q with
      | error e => exact ⟨e, by simp [exMapM, hq]⟩
      | ok v =>
        obtain ⟨e, he⟩ := ih h
        exact ⟨e, by simp [exMapM, hq, he]⟩

theorem bindArgs_error_of_missing (params : List Param) (args : Args) (p : Param)
    (hp : p ∈ params) (hd : p.default = Option.none)
    (ha : lookupArg args p.name = Option.none) :
    ∃ e, bindArgs params args = Except.error e := by
  unfold bindArgs
  cases hu : checkUnexpected params args with
  | error e => exact ⟨e, by simp⟩
  | ok u =>
    obtain ⟨e, he⟩ := exMapM_bindParam_error params args p hp hd ha
    exact ⟨e, by simp [he]⟩

theorem length_filterMap_eq_countP {α β : Type} (f : α → Option β) (l : List α) :
    (l.filterMap f).length = l.countP (fun a => (f a).isSome) := by
  induction l with
  | nil => rfl
  | cons a rest ih =>
    cases hf : f a <;>
      simp [List.filterMap_cons, List.countP_cons, hf, ih]

theorem handle_call_tool_eq_of_some (st : ServerState) (fw : Framework) (name : String)
    (args : Args) (out : HandlerOut) (h : callNamedHandler st fw name args = some out) :
    handle_call_tool st fw name args = (out.1, out.2.1, boundaryWrap name out.2.2) := by
  obtain ⟨st', tr, o⟩ := out
  unfold handle_call_tool
  rw [h]

/-! ## The claims -/

/-- C1: `handle_list_tools` registers exactly twelve operations. For every
name on that list, `handle_call_tool` matches a dispatch arm that binds the
arguments and runs the corresponding handler, returning that handler's
text-content list (with an exception wrapped at the boundary); for every
name off the list no arm matches, no handler runs (state untouched, no
framework call), and the unknown-tool error message is returned as text. -/
theorem c1_dispatch_matches_registration :
    toolNames.length = 12 ∧
    (∀ st fw name args, name ∈ toolNames →
      ∃ out : HandlerOut, callNamedHandler st fw name args = some out ∧
        handle_call_tool st fw name args = (out.1, out.2.1, boundaryWrap name out.2.2)) ∧
    (∀ st fw name args, name ∉ toolNames →
      callNamedHandler st fw name args = Option.none ∧
      handle_call_tool st fw name args =
        (st, [], [tcPlain ("Error executing " ++ name ++ ": Unknown tool: " ++ name)])) := by
  refine ⟨rfl, ?_, ?_⟩
  · intro st fw name args hmem
    have htn : toolNames = ["create_adk_agent", "list_adk_agents", "get_adk_agent_info",
      "run_adk_agent", "list_available_tools", "evaluate_adk_agent",
      "create_multi_agent_system", "add_mcp_tools_to_agent", "search_web",
      "load_webpage_content", "get_adk_documentation", "get_server_version"] := rfl
    rw [htn] at hmem
    simp only [List.mem_cons, List.not_mem_nil, or_false] at hmem
    rcases hmem with rfl | rfl | rfl | rfl | rfl | rfl | rfl | rfl | rfl | rfl | rfl | rfl <;>
      exact ⟨_, rfl, handle_call_tool_eq_of_some _ _ _ _ _ rfl⟩
  · intro st fw name args hmem
    have htn : toolNames = ["create_adk_agent", "list_adk_agents", "get_adk_agent_info",
      "run_adk_agent", "list_available_tools", "evaluate_adk_agent",
      "create_multi_agent_system", "add_mcp_tools_to_agent", "search_web",
      "load_webpage_content", "get_adk_documentation", "get_server_version"] := rfl
    rw [htn] at hmem
    simp only [List.mem_cons, List.not_mem_nil, or_false, not_or] at hmem
    obtain ⟨h1, h2, h3, h4, h5, h6, h7, h8, h9, h10, h11, h12⟩ := hmem
    have hnone : callNamedHandler st fw name args = Option.none := by
      unfold callNamedHandler
      rw [if_neg h1, if_neg h2, if_neg h3, if_neg h4, if_neg h5, if_neg h6, if_neg h7,
        if_neg h8, if_neg h9, if_neg h10, if_neg h11, if_neg h12]
    refine ⟨hnone, ?_⟩
    unfold handle_call_tool
    rw [hnone]

/-- C1 witness: a registered name is forwarded; an unregistered one gets
the unknown-tool message with the state untouched and no framework call. -/
theorem c1_dispatch_matches_registration_witness :
    (∃ out : HandlerOut,
      callNamedHandler ⟨[], []⟩ fwNull "get_server_version" [] = some out ∧
      handle_call_tool ⟨[], []⟩ fwNull "get_server_version" [] =
        (out.1, out.2.1, boundaryWrap "get_server_version" out.2.2)) ∧
    handle_call_tool ⟨[], []⟩ fwNull "bogus" [] =
      (⟨[], []⟩, [],
       [tcPlain ("Error executing " ++ "bogus" ++ ": Unknown tool: " ++ "bogus")]) :=
  ⟨c1_dispatch_matches_registration.2.1 ⟨[], []⟩ fwNull "get_server_version" []
      (by decide),
   (c1_dispatch_matches_registration.2.2 ⟨[], []⟩ fwNull "bogus" [] (by decide)).2⟩

/-- Arguments for `create_adk_agent` whose `description` is an integer,
not the schema-declared string. -/
def c2args : Args :=
  [("name", .str "agent_x"), ("instruction", .str "instr"), ("description", .int 7)]

/-- C2 counterexample: the claim says type-nonconforming arguments are
rejected and not forwarded, but `handle_call_tool` performs no type
validation: with a non-string `description` the handler still runs, the
framework `LlmAgent` constructor is called with the nonconforming value,
the agent is stored, and a success JSON echoing the integer is returned. -/
theorem c2_counterexample :
    (∃ s, schemaFor "create_adk_agent" = some s ∧ conformsToSchema s c2args = false) ∧
    handle_call_tool ⟨[], []⟩ fwNull "create_adk_agent" c2args =
      (⟨[(.str "agent_x",
          ⟨AdkAgent.llm (.str "agent_x") (.str "gemini-2.0-flash") (.str "instr")
            (.int 7) [] [],
           [("name", .str "agent_x"), ("model", .str "gemini-2.0-flash"),
            ("instruction", .str "instr"), ("description", .int 7),
            ("tools", .list [])]⟩)], []⟩,
       [.llmAgentNew (.str "agent_x") (.str "gemini-2.0-flash") (.str "instr")
         (.int 7) [] []],
       [tcJson (.dict
         [("status", .str "success"),
          ("message", .str ("Successfully created agent '" ++ "agent_x" ++ "'")),
          ("agent", .dict
            [("name", .str "agent_x"), ("model", .str "gemini-2.0-flash"),
             ("description", .int 7), ("tools_count", .int 0)])])]) ∧
    (handle_call_tool ⟨[], []⟩ fwNull "create_adk_agent" c2args).2.1 ≠ [] :=
  ⟨⟨_, rfl, rfl⟩, rfl, by intro h; exact List.cons_ne_nil _ _ h⟩

/-- C2 (amended): the dispatch performs no schema validation of its own;
what holds is that a call missing a required property of the declared
schema is rejected through the `**arguments` binding (a `TypeError` caught
at the boundary and returned as a plain-text error), with the state
untouched and no framework call made. Arguments of nonconforming declared
types are not rejected but forwarded unchanged. -/
theorem c2_missing_required_rejected_unforwarded :
    ∀ st fw name args, name ∈ toolNames →
      (∃ r ∈ requiredOf name, lookupArg args r = Option.none) →
      ∃ e, handle_call_tool st fw name args =
        (st, [], [tcPlain ("Error executing " ++ name ++ ": " ++ exnStr e)]) := by
  intro st fw name args hmem hreq
  have htn : toolNames = ["create_adk_agent", "list_adk_agents", "get_adk_agent_info",
    "run_adk_agent", "list_available_tools", "evaluate_adk_agent",
    "create_multi_agent_system", "add_mcp_tools_to_agent", "search_web",
    "load_webpage_content", "get_adk_documentation", "get_server_version"] := rfl
  rw [htn] at hmem
  simp only [List.mem_cons, List.not_mem_nil, or_false] at hmem
  obtain ⟨r, hr, hlook⟩ := hreq
  rcases hmem with rfl | rfl | rfl | rfl | rfl | rfl | rfl | rfl | rfl | rfl | rfl | rfl
  · have hrr : requiredOf "create_adk_agent" = ["name", "instruction"] := rfl
    rw [hrr] at hr
    simp only [List.mem_cons, List.not_mem_nil, or_false] at hr
    have hparam : Param.mk r Option.none ∈ createAdkAgentParams := by
      rcases hr with rfl | rfl
      · exact List.Mem.head _
      · exact List.Mem.tail _ (List.Mem.head _)
    obtain ⟨e, he⟩ :=
      bindArgs_error_of_missing createAdkAgentParams args ⟨r, Option.none⟩ hparam rfl hlook
    refine ⟨e, ?_⟩
    have hc : callNamedHandler st fw "create_adk_agent" args =
        some (st, [], .error e) := by
      unfold callNamedHandler
      rw [if_pos rfl, he]
    exact handle_call_tool_eq_of_some _ _ _ _ _ hc
  · have hrr : requiredOf "list_adk_agents" = [] := rfl
    rw [hrr] at hr
    exact absurd hr (List.not_mem_nil r)
  · have hrr : requiredOf "get_adk_agent_info" = ["agent_name"] := rfl
    rw [hrr] at hr
    simp only [List.mem_cons, List.not_mem_nil, or_false] at hr
    subst hr
    obtain ⟨e, he⟩ := bindArgs_error_of_missing getAdkAgentInfoParams args
      ⟨"agent_name", Option.none⟩ (List.Mem.head _) rfl hlook
    refine ⟨e, ?_⟩
    have hc : callNamedHandler st fw "get_adk_agent_info" args =
        some (st, [], .error e) := by
      unfold callNamedHandler
      rw [if_neg (by decide), if_neg (by decide), if_pos rfl, he]
    exact handle_call_tool_eq_of_some _ _ _ _ _ hc
  · have hrr : requiredOf "run_adk_agent" = ["agent_name", "message"] := rfl
    rw [hrr] at hr
    simp only [List.mem_cons, List.not_mem_nil, or_false] at hr
    have hparam : Param.mk r Option.none ∈ runAdkAgentParams := by
      rcases hr with rfl | rfl
      · exact List.Mem.head _
      · exact List.Mem.tail _ (List.Mem.head _)
    obtain ⟨e, he⟩ :=
      bindArgs_error_of_missing runAdkAgentParams args ⟨r, Option.none⟩ hparam rfl hlook
    refine ⟨e, ?_⟩
    have hc : callNamedHandler st fw "run_adk_agent" args =
        some (st, [], .error e) := by
      unfold callNamedHandler
      rw [if_neg (by decide), if_neg (by decide), if_neg (by decide), if_pos rfl, he]
    exact handle_call_tool_eq_of_some _ _ _ _ _ hc
  · have hrr : requiredOf "list_available_tools" = [] := rfl
    rw [hrr] at hr
    exact absurd hr (List.not_mem_nil r)
  · have hrr : requiredOf "evaluate_adk_agent" = ["agent_name", "test_cases"] := rfl
    rw [hrr] at hr
    simp only [List.mem_cons, List.not_mem_nil, or_false] at hr
    have hparam : Param.mk r Option.none ∈ evaluateAdkAgentParams := by
      rcases hr with rfl | rfl
      · exact List.Mem.head _
      · exact List.Mem.tail _ (List.Mem.head _)
    obtain ⟨e, he⟩ :=
      bindArgs_error_of_missing evaluateAdkAgentParams args ⟨r, Option.none⟩ hparam rfl hlook
    refine ⟨e, ?_⟩
    have hc : callNamedHandler st fw "evaluate_adk_agent" args =
        some (st, [], .error e) := by
      unfold callNamedHandler
      rw [if_neg (by decide), if_neg (by decide), if_neg (by decide), if_neg (by decide),
        if_neg (by decide), if_pos rfl, he]
    exact handle_call_tool_eq_of_some _ _ _ _ _ hc
  · have hrr : requiredOf "create_multi_agent_system" =
        ["coordinator_name", "coordinator_instruction", "sub_agents"] := rfl
    rw [hrr] at hr
    simp only [List.mem_cons, List.not_mem_nil, or_false] at hr
    have hparam : Param.mk r Option.none ∈ createMultiAgentSystemParams := by
      rcases hr with rfl | rfl | rfl
      · exact List.Mem.head _
      · exact List.Mem.tail _ (List.Mem.head _)
      · exact List.Mem.tail _ (List.Mem.tail _ (List.Mem.head _))
    obtain ⟨e, he⟩ := bindArgs_error_of_missing createMultiAgentSystemParams args
      ⟨r, Option.none⟩ hparam rfl hlook
    refine ⟨e, ?_⟩
    have hc : callNamedHandler st fw "create_multi_agent_system" args =
        some (st, [], .error e) := by
      unfold callNamedHandler
      rw [if_neg (by decide), if_neg (by decide), if_neg (by decide), if_neg (by decide),
        if_neg (by decide), if_neg (by decide), if_pos rfl, he]
    exact handle_call_tool_eq_of_some _ _ _ _ _ hc
  · have hrr : requiredOf "add_mcp_tools_to_agent" =
        ["agent_name", "mcp_server_command", "mcp_server_args"] := rfl
    rw [hrr] at hr
    simp only [List.mem_cons, List.not_mem_nil, or_false] at hr
    have hparam : Param.mk r Option.none ∈ addMcpToolsParams := by
      rcases hr with rfl | rfl | rfl
      · exact List.Mem.head _
      · exact List.Mem.tail _ (List.Mem.head _)
      · exact List.Mem.tail _ (List.Mem.tail _ (List.Mem.head _))
    obtain ⟨e, he⟩ :=
      bindArgs_error_of_missing addMcpToolsParams args ⟨r, Option.none⟩ hparam rfl hlook
    refine ⟨e, ?_⟩
    have hc : callNamedHandler st fw "add_mcp_tools_to_agent" args =
        some (st, [], .error e) := by
      unfold callNamedHandler
      rw [if_neg (by decide), if_neg (by decide), if_neg (by decide), if_neg (by decide),
        if_neg (by decide), if_neg (by decide), if_neg (by decide), if_pos rfl, he]
    exact handle_call_tool_eq_of_some _ _ _ _ _ hc
  · have hrr : requiredOf "search_web" = ["query"] := rfl
    rw [hrr] at hr
    simp only [List.mem_cons, List.not_mem_nil, or_false] at hr
    subst hr
    obtain ⟨e, he⟩ := bindArgs_error_of_missing searchWebParams args
      ⟨"query", Option.none⟩ (List.Mem.head _) rfl hlook
    refine ⟨e, ?_⟩
    have hc : callNamedHandler st fw "search_web" args = some (st, [], .error e) := by
      unfold callNamedHandler
      rw [if_neg (by decide), if_neg (by decide), if_neg (by decide), if_neg (by decide),
        if_neg (by decide), if_neg (by decide), if_neg (by decide), if_neg (by decide),
        if_pos rfl, he]
    exact handle_call_tool_eq_of_some _ _ _ _ _ hc
  · have hrr : requiredOf "load_webpage_content" = ["url"] := rfl
    rw [hrr] at hr
    simp only [List.mem_cons, List.not_mem_nil, or_false] at hr
    subst hr
    obtain ⟨e, he⟩ := bindArgs_error_of_missing loadWebpageContentParams args
      ⟨"url", Option.none⟩ (List.Mem.head _) rfl hlook
    refine ⟨e, ?_⟩
    have hc : callNamedHandler st fw "load_webpage_content" args =
        some (st, [], .error e) := by
      unfold callNamedHandler
      rw [if_neg (by decide), if_neg (by decide), if_neg (by decide), if_neg (by decide),
        if_neg (by decide), if_neg (by decide), if_neg (by decide), if_neg (by decide),
        if_neg (by decide), if_pos rfl, he]
    exact handle_call_tool_eq_of_some _ _ _ _ _ hc
  · have hrr : requiredOf "get_adk_documentation" = ["topic"] := rfl
    rw [hrr] at hr
    simp only [List.mem_cons, List.not_mem_nil, or_false] at hr
    subst hr
    obtain ⟨e, he⟩ := bindArgs_error_of_missing getAdkDocumentationParams args
      ⟨"topic", Option.none⟩ (List.Mem.head _) rfl hlook
    refine ⟨e, ?_⟩
    have hc : callNamedHandler st fw "get_adk_documentation" args =
        some (st, [], .error e) := by
      unfold callNamedHandler
      rw [if_neg (by decide), if_neg (by decide), if_neg (by decide), if_neg (by decide),
        if_neg (by decide), if_neg (by decide), if_neg (by decide), if_neg (by decide),
        if_neg (by decide), if_neg (by decide), if_pos rfl, he]
    exact handle_call_tool_eq_of_some _ _ _ _ _ hc
  · have hrr : requiredOf "get_server_version" = [] := rfl
    rw [hrr] at hr
    exact absurd hr (List.not_mem_nil r)

/-- C2 witness: calling `run_adk_agent` without the required `message`
yields the plain rejection with untouched state and no framework call. -/
theorem c2_missing_required_rejected_unforwarded_witness :
    ∃ e, handle_call_tool ⟨[], []⟩ fwNull "run_adk_agent"
        [("agent_name", .str "a")] =
      (⟨[], []⟩, [],
       [tcPlain ("Error executing " ++ "run_adk_agent" ++ ": " ++ exnStr e)]) :=
  c2_missing_required_rejected_unforwarded ⟨[], []⟩ fwNull "run_adk_agent"
    [("agent_name", .str "a")] (by decide) ⟨"message", by decide, rfl⟩

/-- Arguments for `create_adk_agent` whose `tools` value makes the handler
raise (`for tool_name in 7` is a `TypeError`). -/
def c3args : Args :=
  [("name", .str "a"), ("instruction", .str "i"), ("tools", .int 7)]

/-- C3 counterexample: the claim says a handler exception surfaces as a
JSON error message, but the boundary catch in `handle_call_tool` formats a
plain f-string `f"Error executing {name}: {str(e)}"`, not JSON: the single
text-content item returned for a raising handler carries a plain payload.
(The JSON-shaped error texts come from the handlers' own inner catches,
such as `run_adk_agent`'s, not from the call boundary.) -/
theorem c3_counterexample :
    handle_call_tool ⟨[], []⟩ fwNull "create_adk_agent" c3args =
      (⟨[], []⟩, [],
       [tcPlain ("Error executing " ++ "create_adk_agent" ++ ": " ++
         "'int' object is not iterable")]) ∧
    ∀ t ∈ (handle_call_tool ⟨[], []⟩ fwNull "create_adk_agent" c3args).2.2,
      t.text.isJson = false := by
  refine ⟨rfl, ?_⟩
  intro t ht
  have : (handle_call_tool ⟨[], []⟩ fwNull "create_adk_agent" c3args).2.2 =
      [tcPlain ("Error executing " ++ "create_adk_agent" ++ ": " ++
        "'int' object is not iterable")] := rfl
  rw [this] at ht
  simp only [List.mem_singleton] at ht
  subst ht
  rfl

/-- C3 (amended): when a dispatched handler raises, `handle_call_tool`
catches the exception at the call boundary and returns a single text-content
item whose text is the plain formatted string
`f"Error executing {name}: {str(e)}"` (not a JSON message); the exception
does not propagate, no retry occurs, and the handler's state changes and
framework calls up to the raise are kept. -/
theorem c3_boundary_catch_plain_text :
    ∀ st fw name args (out : HandlerOut) e,
      callNamedHandler st fw name args = some out →
      out.2.2 = .error e →
      handle_call_tool st fw name args =
        (out.1, out.2.1,
         [tcPlain ("Error executing " ++ name ++ ": " ++ exnStr e)]) := by
  intro st fw name args out e h hout
  rw [handle_call_tool_eq_of_some _ _ _ _ _ h, hout]
  rfl

/-- C3 witness: a concrete raising call (`get_adk_documentation` with a
non-string topic raises `AttributeError`) is caught and formatted plainly. -/
theorem c3_boundary_catch_plain_text_witness :
    handle_call_tool ⟨[], []⟩ fwNull "get_adk_documentation"
        [("topic", .int 3)] =
      ((⟨[], []⟩ : ServerState), [],
       [tcPlain ("Error executing " ++ "get_adk_documentation" ++ ": " ++
         exnStr (.attributeError ("'" ++ "int" ++
           "' object has no attribute 'lower'")))]) :=
  c3_boundary_catch_plain_text ⟨[], []⟩ fwNull "get_adk_documentation"
    [("topic", .int 3)] _ _ rfl rfl

/-- Characterization of a successful `create_adk_agent`: the requested
tools were iterable, the name hashable, and the new state stores the
constructed agent with its configuration under the name. -/
theorem create_adk_agent_ok (st : ServerState) (n i m d tools : PyVal)
    (st' : ServerState) (tr : List FrameworkCall) (res : List TextContent)
    (h : create_adk_agent st n i m d tools = (st', tr, Except.ok res)) :
    ∃ toolList,
      pyIter (normTools tools) = .ok toolList ∧
      pyHashable n = true ∧
      st' = ServerState.mk
        (pyDictSet st.agents n
          (mkCreatedEntry n m i d (normTools tools) (toolList.filterMap resolveTool)))
        st.sessions := by
  simp only [create_adk_agent] at h
  split at h
  · simp [Prod.ext_iff] at h
  · rename_i toolList heq
    split at h
    · rename_i hhash
      simp only [Prod.mk.injEq] at h
      exact ⟨toolList, heq, hhash, h.1.symm⟩
    · simp [Prod.ext_iff] at h

/-- C4: a store/lookup round trip. After a successful
`create_adk_agent(name, instruction, model, description, tools)`, the
`AGENTS` table maps the name to the agent and its configuration, and
`get_adk_agent_info(name)` returns status `"success"` with exactly the
stored name, model, instruction, description and tools values (the tools
value being the requested list, with the `None` default normalized to the
empty list). -/
theorem c4_store_lookup_roundtrip :
    ∀ st name instruction model description tools st' tr res,
      create_adk_agent st name instruction model description tools =
        (st', tr, Except.ok res) →
      get_adk_agent_info st' name = (st', [],
        Except.ok [tcJson (.dict
          [("status", .str "success"),
           ("agent", .dict
             [("name", name), ("model", model), ("instruction", instruction),
              ("description", description),
              ("tools", normTools tools),
              ("created", .bool true)])])]) := by
  intro st name instruction model description tools st' tr res h
  obtain ⟨toolList, hiter, hhash, hst⟩ :=
    create_adk_agent_ok st name instruction model description tools st' tr res h
  subst hst
  have hget := pyDictGet?_set_self st.agents name
    (mkCreatedEntry name model instruction description (normTools tools)
      (toolList.filterMap resolveTool)) hhash
  simp only [get_adk_agent_info, pyMem, hhash, pyDictHasKey, hget, if_true]
  simp [mkCreatedEntry, keyGet, strLookup]

/-- The state after the C4 witness's concrete create call. -/
def c4state : ServerState :=
  ServerState.mk
    [(.str "w4",
      mkCreatedEntry (.str "w4") (.str "gemini-2.0-flash") (.str "do things")
        (.str "") (.list []) [])] []

/-- C4 witness: a concrete create followed by a lookup on the new state. -/
theorem c4_store_lookup_roundtrip_witness :
    get_adk_agent_info c4state (.str "w4") =
      (c4state, [],
       Except.ok [tcJson (.dict
         [("status", .str "success"),
          ("agent", .dict
            [("name", .str "w4"), ("model", .str "gemini-2.0-flash"),
             ("instruction", .str "do things"), ("description", .str ""),
             ("tools", normTools .pyNone),
             ("created", .bool true)])])]) :=
  c4_store_lookup_roundtrip ⟨[], []⟩ (.str "w4") (.str "do things")
    (.str "gemini-2.0-flash") (.str "") .pyNone _ _ _ rfl

/-- C5: the adapter forwards arguments faithfully and serializes framework
responses. `create_adk_agent` constructs the framework agent with exactly
the provided name, model, instruction and description, and echoes name,
model, description and the resolved-tool count in its success JSON;
`run_adk_agent` echoes agent name, message (as `user_message`) and session
id, with `agent_response` the concatenation of the text parts of the events
the framework runner emitted. -/
theorem c5_faithful_forwarding :
    (∀ st n i m d (ts : List PyVal), pyHashable n = true →
      create_adk_agent st n i m d (.list ts) =
        (ServerState.mk
          (pyDictSet st.agents n
            (mkCreatedEntry n m i d (.list ts) (ts.filterMap resolveTool)))
          st.sessions,
         [.llmAgentNew n m i d (ts.filterMap resolveTool) []],
         .ok [tcJson (.dict
           [("status", .str "success"),
            ("message", .str ("Successfully created agent '" ++ pyStr n ++ "'")),
            ("agent", .dict
              [("name", n), ("model", m), ("description", d),
               ("tools_count", .int (ts.filterMap resolveTool).length)])])])) ∧
    (∀ st fw an msg sid uid evts, pyMem st.agents an = .ok true →
      fw.runEvents = .ok evts →
      ∃ st1 tr, run_adk_agent st fw an msg sid uid =
        (st1, tr, .ok [tcJson (.dict
          [("status", .str "success"), ("agent_name", an), ("user_message", msg),
           ("agent_response", .str (concatEventTexts evts)),
           ("session_id", sid), ("events_count", .int evts.length)])])) := by
  constructor
  · intro st n i m d ts h
    simp [create_adk_agent, normTools, pyIter, h]
  · intro st fw an msg sid uid evts hmem hrun
    cases hsl : strLookup st.sessions (pyStr an ++ "_" ++ pyStr sid) with
    | none =>
      exact ⟨ServerState.mk st.agents
          (strDictSet st.sessions (pyStr an ++ "_" ++ pyStr sid)
            (Session.mk fw.newSessionId ("adk-mcp-" ++ pyStr an) uid)),
        [.createSession ("adk-mcp-" ++ pyStr an) uid,
         .runnerRun fw.newSessionId uid msg],
        by simp [run_adk_agent, hmem, hsl, hrun]⟩
    | some s =>
      exact ⟨st, [.runnerRun s.id uid msg],
        by simp [run_adk_agent, hmem, hsl, hrun]⟩

/-- The one-agent state used by the C5 witness. -/
def c5state : ServerState :=
  ServerState.mk
    [(.str "w5",
      mkCreatedEntry (.str "w5") (.str "gemini-2.0-flash") (.str "i") (.str "")
        (.list []) [])] []

/-- The framework responses used by the C5 witness: the runner emits two
events carrying the texts `"Hel"` and `"lo"`. -/
def c5fw : Framework :=
  Framework.mk "sess-5"
    (.ok [Event.mk (some (EvContent.mk [EvPart.mk (some "Hel")])),
          Event.mk (some (EvContent.mk [EvPart.mk (some "lo")]))])
    (fun _ => .ok "") (.ok .pyNone) (.ok .pyNone) (.ok ())

/-- C5 witness: a concrete create and a concrete run with two framework
events whose texts concatenate. -/
theorem c5_faithful_forwarding_witness :
    create_adk_agent ⟨[], []⟩ (.str "w5") (.str "i") (.str "gemini-2.0-flash")
        (.str "") (.list [.str "google_search", .str "mystery"]) =
      (ServerState.mk
        [(.str "w5",
          mkCreatedEntry (.str "w5") (.str "gemini-2.0-flash") (.str "i") (.str "")
            (.list [.str "google_search", .str "mystery"]) [.googleSearch])] [],
       [.llmAgentNew (.str "w5") (.str "gemini-2.0-flash") (.str "i") (.str "")
         [.googleSearch] []],
       .ok [tcJson (.dict
         [("status", .str "success"),
          ("message", .str ("Successfully created agent '" ++ pyStr (.str "w5") ++ "'")),
          ("agent", .dict
            [("name", .str "w5"), ("model", .str "gemini-2.0-flash"),
             ("description", .str ""), ("tools_count", .int 1)])])]) ∧
    ∃ st1 tr, run_adk_agent c5state c5fw (.str "w5") (.str "hi") (.str "s") (.str "u") =
      (st1, tr, .ok [tcJson (.dict
        [("status", .str "success"), ("agent_name", .str "w5"),
         ("user_message", .str "hi"),
         ("agent_response", .str (concatEventTexts
           [Event.mk (some (EvContent.mk [EvPart.mk (some "Hel")])),
            Event.mk (some (EvContent.mk [EvPart.mk (some "lo")]))])),
         ("session_id", .str "s"), ("events_count", .int 2)])]) :=
  ⟨c5_faithful_forwarding.1 ⟨[], []⟩ (.str "w5") (.str "i") (.str "gemini-2.0-flash")
     (.str "") [.str "google_search", .str "mystery"] rfl,
   c5_faithful_forwarding.2 c5state c5fw (.str "w5") (.str "hi") (.str "s") (.str "u")
     _ rfl rfl⟩

/-- C6: the defaults declared in the schemas of `handle_list_tools` are the
values actually used when the optional parameter is omitted:
`create_adk_agent` without `model` uses `"gemini-2.0-flash"` and without
`tools` stores the empty list and resolves no tools; `run_adk_agent`
without `session_id` uses `"default"` and without `user_id` creates the
session for `"user"`; `search_web` without `num_results` invokes the search
tool with `5`. -/
theorem c6_declared_defaults_are_used :
    (schemaDefault "create_adk_agent" "model" = some (.str "gemini-2.0-flash") ∧
     schemaDefault "create_adk_agent" "tools" = some (.list []) ∧
     schemaDefault "run_adk_agent" "session_id" = some (.str "default") ∧
     schemaDefault "run_adk_agent" "user_id" = some (.str "user") ∧
     schemaDefault "search_web" "num_results" = some (.int 5)) ∧
    (∀ st fw n i, pyHashable n = true →
      handle_call_tool st fw "create_adk_agent" [("name", n), ("instruction", i)] =
        (ServerState.mk
          (pyDictSet st.agents n
            (mkCreatedEntry n (.str "gemini-2.0-flash") i (.str "") (.list []) []))
          st.sessions,
         [.llmAgentNew n (.str "gemini-2.0-flash") i (.str "") [] []],
         [tcJson (.dict
           [("status", .str "success"),
            ("message", .str ("Successfully created agent '" ++ pyStr n ++ "'")),
            ("agent", .dict
              [("name", n), ("model", .str "gemini-2.0-flash"),
               ("description", .str ""), ("tools_count", .int 0)])])])) ∧
    (∀ st fw an msg evts, pyMem st.agents an = .ok true →
      strLookup st.sessions (pyStr an ++ "_" ++ "default") = Option.none →
      fw.runEvents = .ok evts →
      handle_call_tool st fw "run_adk_agent" [("agent_name", an), ("message", msg)] =
        (ServerState.mk st.agents
          (strDictSet st.sessions (pyStr an ++ "_" ++ "default")
            (Session.mk fw.newSessionId ("adk-mcp-" ++ pyStr an) (.str "user"))),
         [.createSession ("adk-mcp-" ++ pyStr an) (.str "user"),
          .runnerRun fw.newSessionId (.str "user") msg],
         [tcJson (.dict
           [("status", .str "success"), ("agent_name", an), ("user_message", msg),
            ("agent_response", .str (concatEventTexts evts)),
            ("session_id", .str "default"), ("events_count", .int evts.length)])])) ∧
    (∀ st fw q, (handle_call_tool st fw "search_web" [("query", q)]).2.1 =
      [.googleSearchRun q (.int 5)]) := by
  refine ⟨⟨rfl, rfl, rfl, rfl, rfl⟩, ?_, ?_, ?_⟩
  · intro st fw n i h
    simp [handle_call_tool, callNamedHandler, bindArgs, checkUnexpected, exMapM,
      bindParam, lookupArg, strLookup, envGet, createAdkAgentParams,
      create_adk_agent, normTools, pyIter, h, boundaryWrap]
  · intro st fw an msg evts hmem hsl hrun
    simp [handle_call_tool, callNamedHandler, bindArgs, checkUnexpected, exMapM,
      bindParam, lookupArg, strLookup, envGet, runAdkAgentParams,
      run_adk_agent, pyStr_str, hmem, hsl, hrun, boundaryWrap]
  · intro st fw q
    cases hsr : fw.searchResult with
    | ok r =>
      simp [handle_call_tool, callNamedHandler, bindArgs, checkUnexpected, exMapM,
        bindParam, lookupArg, strLookup, envGet, searchWebParams, search_web,
        hsr, boundaryWrap]
    | error e =>
      simp [handle_call_tool, callNamedHandler, bindArgs, checkUnexpected, exMapM,
        bindParam, lookupArg, strLookup, envGet, searchWebParams, search_web,
        hsr, boundaryWrap]

/-- The one-agent state used by the C6 witness. -/
def c6state : ServerState :=
  ServerState.mk
    [(.str "w6",
      mkCreatedEntry (.str "w6") (.str "gemini-2.0-flash") (.str "i") (.str "")
        (.list []) [])] []

/-- C6 witness: the three behavioral parts instantiated concretely. -/
theorem c6_declared_defaults_are_used_witness :
    handle_call_tool ⟨[], []⟩ fwNull "create_adk_agent"
        [("name", .str "w6"), ("instruction", .str "i")] =
      (ServerState.mk
        [(.str "w6",
          mkCreatedEntry (.str "w6") (.str "gemini-2.0-flash") (.str "i") (.str "")
            (.list []) [])] [],
       [.llmAgentNew (.str "w6") (.str "gemini-2.0-flash") (.str "i") (.str "") [] []],
       [tcJson (.dict
         [("status", .str "success"),
          ("message", .str ("Successfully created agent '" ++ pyStr (.str "w6") ++ "'")),
          ("agent", .dict
            [("name", .str "w6"), ("model", .str "gemini-2.0-flash"),
             ("description", .str ""), ("tools_count", .int 0)])])]) ∧
    handle_call_tool c6state fwNull "run_adk_agent"
        [("agent_name", .str "w6"), ("message", .str "hi")] =
      (ServerState.mk c6state.agents
        (strDictSet [] (pyStr (.str "w6") ++ "_" ++ "default")
          (Session.mk fwNull.newSessionId ("adk-mcp-" ++ pyStr (.str "w6")) (.str "user"))),
       [.createSession ("adk-mcp-" ++ pyStr (.str "w6")) (.str "user"),
        .runnerRun fwNull.newSessionId (.str "user") (.str "hi")],
       [tcJson (.dict
         [("status", .str "success"), ("agent_name", .str "w6"),
          ("user_message", .str "hi"),
          ("agent_response", .str (concatEventTexts [])),
          ("session_id", .str "default"), ("events_count", .int 0)])]) ∧
    (handle_call_tool ⟨[], []⟩ fwNull "search_web" [("query", .str "q")]).2.1 =
      [.googleSearchRun (.str "q") (.int 5)] :=
  ⟨c6_declared_defaults_are_used.2.1 ⟨[], []⟩ fwNull (.str "w6") (.str "i") rfl,
   c6_declared_defaults_are_used.2.2.1 c6state fwNull (.str "w6") (.str "hi") [] rfl rfl rfl,
   c6_declared_defaults_are_used.2.2.2 ⟨[], []⟩ fwNull (.str "q")⟩

/-- C7: when a parallel agent runs two sub-agents concurrently and the
first-submitted one is delayed while the second is not, exactly two events
are emitted, in completion order (the undelayed second sub-agent's event
before the delayed first one's), and each event carries the stable identity
of its producing sub-agent: its author is that sub-agent's name and its
branch ends with that sub-agent's name. -/
theorem c7_parallel_completion_order_and_identity :
    ∀ pname (a b : SubAgentSpec), b.delay < a.delay →
      parallelRunAsync pname [a, b] =
        [PEvent.mk b.name (pname ++ "." ++ b.name) ("Hello, async " ++ b.name ++ "!"),
         PEvent.mk a.name (pname ++ "." ++ a.name) ("Hello, async " ++ a.name ++ "!")] ∧
      (parallelRunAsync pname [a, b]).length = 2 ∧
      (∀ e ∈ parallelRunAsync pname [a, b],
        endsWithStr e.branch e.author) := by
  intro pname a b h
  have hrun : parallelRunAsync pname [a, b] =
      [PEvent.mk b.name (pname ++ "." ++ b.name) ("Hello, async " ++ b.name ++ "!"),
       PEvent.mk a.name (pname ++ "." ++ a.name) ("Hello, async " ++ a.name ++ "!")] := by
    simp [parallelRunAsync, testingAgentRun, insertByTime, h]
  refine ⟨hrun, by rw [hrun]; rfl, ?_⟩
  intro e he
  rw [hrun] at he
  simp only [List.mem_cons, List.not_mem_nil, or_false] at he
  rcases he with rfl | rfl
  · exact ⟨pname ++ ".", rfl⟩
  · exact ⟨pname ++ ".", rfl⟩

/-- C7 witness: the unit test's configuration, first sub-agent delayed by
half a second, second not delayed. -/
theorem c7_parallel_completion_order_and_identity_witness :
    parallelRunAsync "test_run_async_test_parallel_agent"
        [SubAgentSpec.mk "test_run_async_test_agent_1" (1 / 2),
         SubAgentSpec.mk "test_run_async_test_agent_2" 0] =
      [PEvent.mk "test_run_async_test_agent_2"
        ("test_run_async_test_parallel_agent" ++ "." ++ "test_run_async_test_agent_2")
        ("Hello, async " ++ "test_run_async_test_agent_2" ++ "!"),
       PEvent.mk "test_run_async_test_agent_1"
        ("test_run_async_test_parallel_agent" ++ "." ++ "test_run_async_test_agent_1")
        ("Hello, async " ++ "test_run_async_test_agent_1" ++ "!")] :=
  (c7_parallel_completion_order_and_identity "test_run_async_test_parallel_agent"
    (SubAgentSpec.mk "test_run_async_test_agent_1" (1 / 2))
    (SubAgentSpec.mk "test_run_async_test_agent_2" 0) (by norm_num)).1

/-- C8 counterexample: as stated the claim quantifies over every
`agent_name`, but for a name absent from the agent table
`evaluate_adk_agent` returns the not-found error JSON, which carries
neither a `"status"` of success nor a `"total_tests"` of 0. -/
theorem c8_counterexample :
    evaluate_adk_agent ⟨[], []⟩ fwNull (.str "ghost") (.list []) =
      (⟨[], []⟩, [], .ok [tcJson (.dict
        [("error", .str ("Agent '" ++ "ghost" ++ "' not found"))])]) ∧
    strLookup [("error", PyVal.str ("Agent '" ++ "ghost" ++ "' not found"))]
      "status" = Option.none ∧
    strLookup [("error", PyVal.str ("Agent '" ++ "ghost" ++ "' not found"))]
      "total_tests" = Option.none :=
  ⟨rfl, rfl, rfl⟩

/-- A well-formed test case dict, as the schema describes one. -/
def mkCase (inp expOut : String) : PyVal :=
  .dict [("input", .str inp), ("expected_output", .str expOut)]

theorem caseRow_mkCase_ok (fw : Framework) (i : Nat) (inp expOut : String) :
    ∃ r, caseRow fw i (mkCase inp expOut) = .ok r := by
  simp only [caseRow, mkCase, pySubscript, keyGet, strLookup]
  cases fw.evalOutcome i <;> simp

/-- C8 (amended): for an `agent_name` present in the agent table,
`evaluate_adk_agent` with an empty `test_cases` list returns a success
result with `total_tests` 0, `passed_tests` 0 and `success_rate` 0 rather
than failing on division by zero; with non-empty test cases the success
rate equals `passed_tests / total_tests` exactly. For names absent from
the table an error JSON is returned instead. -/
theorem c8_success_rate_division_guarded :
    ∀ st fw an (cs : List (String × String)), pyMem st.agents an = .ok true →
      ∃ (p : ℕ) (rows : List PyVal) (tr : List FrameworkCall),
        evaluate_adk_agent st fw an (.list (cs.map (fun c => mkCase c.1 c.2))) =
          (st, tr, .ok [tcJson (.dict
            [("status", .str "success"), ("agent_name", an),
             ("total_tests", .int cs.length), ("passed_tests", .int p),
             ("success_rate",
               if cs.isEmpty then PyVal.int 0
               else PyVal.float ((p : ℚ) / (cs.length : ℚ))),
             ("results", .list rows)])]) ∧
        (cs = [] → p = 0) := by
  intro st fw an cs hmem
  have hall : ∀ q ∈ (cs.map (fun c => mkCase c.1 c.2)).enum,
      ∃ r, caseRow fw q.1 q.2 = .ok r := by
    intro q hq
    have h2 : (cs.map (fun c => mkCase c.1 c.2))[q.1]? = some q.2 :=
      List.mem_enum_iff_getElem?.mp hq
    have h3 : q.2 ∈ cs.map (fun c => mkCase c.1 c.2) := List.getElem?_mem h2
    obtain ⟨c, _, hc⟩ := List.mem_map.mp h3
    rw [← hc]
    exact caseRow_mkCase_ok fw q.1 c.1 c.2
  obtain ⟨rows, hrows⟩ := exMapM_ok_of_forall _ _ hall
  cases cs with
  | nil =>
    refine ⟨0, [], [], ?_, fun _ => rfl⟩
    simp [evaluate_adk_agent, hmem, pyIter, exMapM, pyTruthy]
  | cons c cs' =>
    refine ⟨(rows.filter rowPassed).length, rows,
      ((c :: cs').map (fun c => mkCase c.1 c.2)).map
        (fun _ => FrameworkCall.createSession ("eval-" ++ pyStr an) (.str "evaluator")),
      ?_, fun hh => absurd hh (by simp)⟩
    simp only [evaluate_adk_agent, hmem, pyIter, hrows]
    simp [pyTruthy, List.length_map]

/-- The one-agent state used by the C8 witness. -/
def c8state : ServerState :=
  ServerState.mk
    [(.str "w8",
      mkCreatedEntry (.str "w8") (.str "gemini-2.0-flash") (.str "i") (.str "")
        (.list []) [])] []

/-- C8 witness: an empty and a one-element test set against a stored
agent. -/
theorem c8_success_rate_division_guarded_witness :
    (∃ (p : ℕ) (rows : List PyVal) (tr : List FrameworkCall),
      evaluate_adk_agent c8state fwNull (.str "w8")
          (.list (([] : List (String × String)).map (fun c => mkCase c.1 c.2))) =
        (c8state, tr, .ok [tcJson (.dict
          [("status", .str "success"), ("agent_name", .str "w8"),
           ("total_tests", .int ([] : List (String × String)).length),
           ("passed_tests", .int p),
           ("success_rate",
             if ([] : List (String × String)).isEmpty then PyVal.int 0
             else PyVal.float ((p : ℚ) / (([] : List (String × String)).length : ℚ))),
           ("results", .list rows)])]) ∧
      (([] : List (String × String)) = [] → p = 0)) ∧
    (∃ (p : ℕ) (rows : List PyVal) (tr : List FrameworkCall),
      evaluate_adk_agent c8state fwNull (.str "w8")
          (.list ([("q", "a")].map (fun c => mkCase c.1 c.2))) =
        (c8state, tr, .ok [tcJson (.dict
          [("status", .str "success"), ("agent_name", .str "w8"),
           ("total_tests", .int ([("q", "a")] : List (String × String)).length),
           ("passed_tests", .int p),
           ("success_rate",
             if ([("q", "a")] : List (String × String)).isEmpty then PyVal.int 0
             else PyVal.float ((p : ℚ) /
               ((([("q", "a")] : List (String × String)).length : ℕ) : ℚ))),
           ("results", .list rows)])]) ∧
      (([("q", "a")] : List (String × String)) = [] → p = 0)) :=
  ⟨c8_success_rate_division_guarded c8state fwNull (.str "w8") [] rfl,
   c8_success_rate_division_guarded c8state fwNull (.str "w8") [("q", "a")] rfl⟩

/-- C9: `create_multi_agent_system` is atomic on failure. When any listed
sub-agent name is absent from the agent table, it returns a JSON error
naming exactly the missing sub-agents, no framework coordinator agent is
constructed (empty framework-call trace) and the state is returned
unchanged (in particular the coordinator name is not added). -/
theorem c9_multi_agent_atomic_on_missing :
    ∀ st cn ci subs model names missing,
      pyIter subs = .ok names →
      missingOf st names = .ok missing →
      missing ≠ [] →
      create_multi_agent_system st cn ci subs model =
        (st, [], .ok [tcJson (.dict
          [("error", .str ("Missing sub-agents: " ++ pyRepr (.list missing) ++
            ". Create them first."))])]) := by
  intro st cn ci subs model names missing h1 h2 h3
  cases missing with
  | nil => exact absurd rfl h3
  | cons m ms =>
    simp only [create_multi_agent_system, h1, h2]
    simp

/-- C9 witness: one listed sub-agent, absent from an empty table. -/
theorem c9_multi_agent_atomic_on_missing_witness :
    create_multi_agent_system ⟨[], []⟩ (.str "coord") (.str "ci")
        (.list [.str "missing1"]) (.str "gemini-2.0-flash") =
      (⟨[], []⟩, [], .ok [tcJson (.dict
        [("error", .str ("Missing sub-agents: " ++
          pyRepr (.list [.str "missing1"]) ++ ". Create them first."))])]) :=
  c9_multi_agent_atomic_on_missing ⟨[], []⟩ (.str "coord") (.str "ci")
    (.list [.str "missing1"]) (.str "gemini-2.0-flash") [.str "missing1"]
    [.str "missing1"] rfl rfl (List.cons_ne_nil _ _)

/-- C10: `create_adk_agent` silently skips unrecognized tool names: the
agent is still created and stored with status `"success"`, the reported
`tools_count` equals the number of recognized names in the requested list,
and the stored configuration's tools field keeps the original requested
list, unrecognized names included. -/
theorem c10_unrecognized_tools_skipped :
    ∀ st n i m d (ts : List PyVal), pyHashable n = true →
      create_adk_agent st n i m d (.list ts) =
        (ServerState.mk
          (pyDictSet st.agents n
            (mkCreatedEntry n m i d (.list ts) (ts.filterMap resolveTool)))
          st.sessions,
         [.llmAgentNew n m i d (ts.filterMap resolveTool) []],
         .ok [tcJson (.dict
           [("status", .str "success"),
            ("message", .str ("Successfully created agent '" ++ pyStr n ++ "'")),
            ("agent", .dict
              [("name", n), ("model", m), ("description", d),
               ("tools_count",
                 .int (ts.countP (fun t => (resolveTool t).isSome)))])])]) ∧
      (mkCreatedEntry n m i d (.list ts) (ts.filterMap resolveTool)).config =
        [("name", n), ("model", m), ("instruction", i), ("description", d),
         ("tools", .list ts)] := by
  intro st n i m d ts h
  refine ⟨?_, rfl⟩
  rw [← length_filterMap_eq_countP resolveTool ts]
  simp [create_adk_agent, normTools, pyIter, h]

/-- C10 witness: two recognized names and one unrecognized; the count is 2
and the stored tools list keeps all three. -/
theorem c10_unrecognized_tools_skipped_witness :
    create_adk_agent ⟨[], []⟩ (.str "w10") (.str "i") (.str "m") (.str "")
        (.list [.str "google_search", .str "bogus_tool", .str "load_web_page"]) =
      (ServerState.mk
        (pyDictSet [] (.str "w10")
          (mkCreatedEntry (.str "w10") (.str "m") (.str "i") (.str "")
            (.list [.str "google_search", .str "bogus_tool", .str "load_web_page"])
            ([PyVal.str "google_search", .str "bogus_tool",
              .str "load_web_page"].filterMap resolveTool)))
        [],
       [.llmAgentNew (.str "w10") (.str "m") (.str "i") (.str "")
         ([PyVal.str "google_search", .str "bogus_tool",
           .str "load_web_page"].filterMap resolveTool) []],
       .ok [tcJson (.dict
         [("status", .str "success"),
          ("message", .str ("Successfully created agent '" ++ pyStr (.str "w10") ++ "'")),
          ("agent", .dict
            [("name", .str "w10"), ("model", .str "m"), ("description", .str ""),
             ("tools_count",
               .int ([PyVal.str "google_search", .str "bogus_tool",
                 .str "load_web_page"].countP
                   (fun t => (resolveTool t).isSome)))])])]) ∧
      (mkCreatedEntry (.str "w10") (.str "m") (.str "i") (.str "")
        (.list [.str "google_search", .str "bogus_tool", .str "load_web_page"])
        ([PyVal.str "google_search", .str "bogus_tool",
          .str "load_web_page"].filterMap resolveTool)).config =
        [("name", .str "w10"), ("model", .str "m"), ("instruction", .str "i"),
         ("description", .str ""),
         ("tools", .list [.str "google_search", .str "bogus_tool",
           .str "load_web_page"])] :=
  c10_unrecognized_tools_skipped ⟨[], []⟩ (.str "w10") (.str "i") (.str "m")
    (.str "") [.str "google_search", .str "bogus_tool", .str "load_web_page"] rfl

end AdkMcp




